import Mathlib

/-!
Shallow embedding of `scripts/rate_limits.py` (Superchain bridging rate-limit
monitor).  Token quantities and rates are modelled as exact rationals (the
source computes them with Python numeric division); block timestamps are
naturals (Unix seconds).  The script's prints are pure logging and are not
modelled; the value of `main()` is the `new_chain_limits` mapping, modelled as
an association list built in loop order.
-/

namespace RateLimits

/-- Modelled from the spec: `utils.constants.WEEK` (the `utils.constants`
module is not among the provided sources).  Fixed epoch length of one week in
seconds (§3 EpochWindow, Glossary "Epoch"). -/
def WEEK : ℕ := 604800

/-- Modelled from the spec: `utils.constants.BUFFER_MARGIN` (the
`utils.constants` module is not among the provided sources).  Multiplicative
safety factor > 1 applied to emissions and buffer caps; Scenario A fixes it at
1.2. -/
def BUFFER_MARGIN : ℚ := 6 / 5

/-- Modelled from the spec: `utils.constants.RPS_MARGIN` (the
`utils.constants` module is not among the provided sources).  Multiplicative
safety factor > 1 applied to replenishment rates; Scenario A fixes it at
1.1. -/
def RPS_MARGIN : ℚ := 11 / 10

/-- Modelled from the spec: the numeric snapshot fields of
`utils.types.ChainData` (the `utils.types` module is not among the provided
sources; §3 NetworkState lists the fields, and `fetch_voting_weights` /
`fetch_existing_buffers` populate them).  `name` is the display name; the
remaining fields are the on-chain bridging-module state read once per run. -/
structure ChainData where
  name : String
  total_voting_weight : ℚ
  existing_buffer_cap : ℚ
  existing_rate_limit : ℚ
  current_limit : ℚ
  existing_midpoint : ℚ
  deriving Repr, DecidableEq

/-- Modelled from the spec: `utils.types.NewLimitData` (the `utils.types`
module is not among the provided sources; §3 LimitRecommendation:
`(network_name, recommended_buffer_cap, recommended_rate_limit,
temporary_rate_limit_or_zero)`). -/
structure NewLimitData where
  name : String
  buffer_cap : ℚ
  rate_limit : ℚ
  temporary_rate_limit : ℚ
  deriving Repr, DecidableEq

/-- One iteration's worth of input for the per-chain loop of `main`
(lines 93–171).  `chain_id` is the key of the `chains` dict.  `own_ts` is the
chain's own latest block timestamp (reachable through `chain_data.rpc_url`;
the loop never reads it).  `hub_ts_primary` and `hub_ts_contingency` are the
values returned by the two `web3.eth.get_block("latest").timestamp` calls on
the Optimism connection `web3` (lines 111 and 135) during this iteration. -/
structure ChainInput where
  chain_id : ℕ
  data : ChainData
  own_ts : ℕ
  hub_ts_primary : ℕ
  hub_ts_contingency : ℕ
  deriving Repr, DecidableEq

/-- Hub-side inputs for the `op_buffer_delta > 0` block (lines 173–211):
the Optimism xERC20 reads (lines 175–177) and the timestamp read of
line 179. -/
structure HubInput where
  op_buffer_cap : ℚ
  op_rate_limit : ℚ
  op_current_limit : ℚ
  ts : ℕ
  deriving Repr, DecidableEq

/-- Line 95: `weights_percentage = chain_data.total_voting_weight / total_voting_weight`. -/
def weights_percentage (tvw V : ℚ) : ℚ := tvw / V

/-- Line 96: `min_emissions = weekly * weights_percentage`. -/
def min_emissions (weekly tvw V : ℚ) : ℚ := weekly * weights_percentage tvw V

/-- Line 97: `min_buffer_cap = min_emissions * 2`. -/
def min_buffer_cap (weekly tvw V : ℚ) : ℚ := min_emissions weekly tvw V * 2

/-- Line 100: `chain_data.expected_emissions = min_emissions * BUFFER_MARGIN`. -/
def expected_emissions (bm weekly tvw V : ℚ) : ℚ := min_emissions weekly tvw V * bm

/-- Line 101: `adjusted_buffer_cap = min_buffer_cap * BUFFER_MARGIN`. -/
def adjusted_buffer_cap (bm weekly tvw V : ℚ) : ℚ := min_buffer_cap weekly tvw V * bm

/-- Line 102: `adjusted_rps = (min_buffer_cap / WEEK) * RPS_MARGIN`. -/
def adjusted_rps (rm weekly tvw V : ℚ) : ℚ := (min_buffer_cap weekly tvw V / (WEEK : ℚ)) * rm

/-- Lines 103–107: the per-chain contribution to `op_buffer_delta`
(`adjusted_buffer_cap - existing_buffer_cap if adjusted_buffer_cap >
existing_buffer_cap else 0`). -/
def delta_contribution (bm weekly V : ℚ) (cd : ChainData) : ℚ :=
  if adjusted_buffer_cap bm weekly cd.total_voting_weight V > cd.existing_buffer_cap then
    adjusted_buffer_cap bm weekly cd.total_voting_weight V - cd.existing_buffer_cap
  else 0

/-- Line 112: `epoch_next = timestamp - (timestamp % WEEK) + WEEK`. -/
def epoch_next (ts : ℕ) : ℕ := ts - ts % WEEK + WEEK

/-- Line 113: `time_to_next_epoch = epoch_next - timestamp`. -/
def time_to_next_epoch (ts : ℕ) : ℕ := epoch_next ts - ts

/-- Line 137: `replenish_ts = epoch_next - (60 * 10)`. -/
def replenish_ts (ts : ℕ) : ℕ := epoch_next ts - 60 * 10

/-- Lines 139–141 (and 183): the contingency window
`replenish_ts - timestamp if timestamp < replenish_ts else epoch_next - timestamp`. -/
def contingency_window (ts : ℕ) : ℕ :=
  if ts < replenish_ts ts then replenish_ts ts - ts else epoch_next ts - ts

/-- Lines 114–117: primary projected usable buffer
`min(current_limit + existing_rate_limit * time_to_next_epoch, existing_midpoint)`. -/
def replenished_buffer (cd : ChainData) (ts : ℕ) : ℚ :=
  min (cd.current_limit + cd.existing_rate_limit * (time_to_next_epoch ts : ℚ))
    cd.existing_midpoint

/-- Line 143: contingency `expected_buffer = current_limit + adjusted_rps * time_to_next_epoch`
with the recomputed 10-minute-margin window. -/
def contingency_expected_buffer (rm weekly V : ℚ) (cd : ChainData) (ts : ℕ) : ℚ :=
  cd.current_limit +
    adjusted_rps rm weekly cd.total_voting_weight V * (contingency_window ts : ℚ)

/-- Lines 144–146: contingency replenished buffer
`min(expected_buffer, adjusted_buffer_cap / 2)`. -/
def contingency_replenished_buffer (bm rm weekly V : ℚ) (cd : ChainData) (ts : ℕ) : ℚ :=
  min (contingency_expected_buffer rm weekly V cd ts)
    (adjusted_buffer_cap bm weekly cd.total_voting_weight V / 2)

/-- Lines 151–154: `temporary_rps = ((adjusted_buffer_cap / 2) - current_limit)
/ time_to_next_epoch * RPS_MARGIN`. -/
def temporary_rps (bm rm weekly V : ℚ) (cd : ChainData) (ts : ℕ) : ℚ :=
  (adjusted_buffer_cap bm weekly cd.total_voting_weight V / 2 - cd.current_limit) /
      (contingency_window ts : ℚ) * rm

/-- Lines 110–169: the body of the per-chain loop, from the primary
replenished-buffer computation to the recommendation decision.  `ts1` and
`ts2` are the hub timestamps read at lines 111 and 135.  Returns the
`NewLimitData` stored into `new_chain_limits[chain_id]`, or `none` when the
primary check passes and nothing is stored. -/
def process_chain (bm rm weekly V : ℚ) (cd : ChainData) (ts1 ts2 : ℕ) :
    Option NewLimitData :=
  if expected_emissions bm weekly cd.total_voting_weight V > replenished_buffer cd ts1 then
    if expected_emissions bm weekly cd.total_voting_weight V >
        contingency_replenished_buffer bm rm weekly V cd ts2 then
      some ⟨cd.name, adjusted_buffer_cap bm weekly cd.total_voting_weight V,
        adjusted_rps rm weekly cd.total_voting_weight V, temporary_rps bm rm weekly V cd ts2⟩
    else
      some ⟨cd.name, adjusted_buffer_cap bm weekly cd.total_voting_weight V,
        adjusted_rps rm weekly cd.total_voting_weight V, 0⟩
  else none

/-- Lines 90, 103–107 accumulated over the whole loop:
`op_buffer_delta` after all chains are processed. -/
def op_buffer_delta (bm weekly V : ℚ) (inputs : List ChainInput) : ℚ :=
  (inputs.map (fun ci => delta_contribution bm weekly V ci.data)).sum

/-- Lines 91, 108 accumulated over the whole loop:
`op_expected_emissions` after all chains are processed. -/
def op_expected_emissions (bm weekly V : ℚ) (inputs : List ChainInput) : ℚ :=
  (inputs.map (fun ci => expected_emissions bm weekly ci.data.total_voting_weight V)).sum

/-- The per-chain entries of `new_chain_limits` in loop order (every
`new_chain_limits[chain_id] = ...` assignment of lines 161–169). -/
def chain_recs (bm rm weekly V : ℚ) (inputs : List ChainInput) :
    List (ℕ × NewLimitData) :=
  inputs.filterMap fun ci =>
    (process_chain bm rm weekly V ci.data ci.hub_ts_primary ci.hub_ts_contingency).map
      fun r => (ci.chain_id, r)

/-- Line 185: `adjusted_buffer_cap = op_buffer_delta + op_buffer_cap`. -/
def hub_adjusted_buffer_cap (opDelta : ℚ) (hub : HubInput) : ℚ :=
  opDelta + hub.op_buffer_cap

/-- Lines 186–187: `min_buffer_cap = adjusted_buffer_cap / BUFFER_MARGIN`;
`adjusted_rps = (min_buffer_cap / WEEK) * RPS_MARGIN`. -/
def hub_adjusted_rps (bm rm : ℚ) (opDelta : ℚ) (hub : HubInput) : ℚ :=
  (hub_adjusted_buffer_cap opDelta hub / bm / (WEEK : ℚ)) * rm

/-- Lines 189–190: `min(op_current_limit + adjusted_rps * time_to_next_epoch,
adjusted_buffer_cap / 2)` with the 10-minute-margin window of line 183. -/
def hub_replenished_buffer (bm rm : ℚ) (opDelta : ℚ) (hub : HubInput) : ℚ :=
  min (hub.op_current_limit +
      hub_adjusted_rps bm rm opDelta hub * (contingency_window hub.ts : ℚ))
    (hub_adjusted_buffer_cap opDelta hub / 2)

/-- Lines 196–200: the hub's temporary rate
`((adjusted_buffer_cap / 2) - op_current_limit) / time_to_next_epoch * RPS_MARGIN`. -/
def hub_temporary_rps (rm : ℚ) (opDelta : ℚ) (hub : HubInput) : ℚ :=
  (hub_adjusted_buffer_cap opDelta hub / 2 - hub.op_current_limit) /
      (contingency_window hub.ts : ℚ) * rm

/-- Lines 179–211: the Optimism hub block executed when `op_buffer_delta > 0`.
Always stores `new_chain_limits[10]`; the only branch (line 196) decides
whether `temporary_rps` is attached or `0`. -/
def process_hub (bm rm : ℚ) (opDelta opEmissions : ℚ) (hub : HubInput) : NewLimitData :=
  if opEmissions > hub_replenished_buffer bm rm opDelta hub then
    ⟨"Optimism", hub_adjusted_buffer_cap opDelta hub, hub_adjusted_rps bm rm opDelta hub,
      hub_temporary_rps rm opDelta hub⟩
  else
    ⟨"Optimism", hub_adjusted_buffer_cap opDelta hub, hub_adjusted_rps bm rm opDelta hub, 0⟩

/-- Lines 88–213: the value of `main()` — the `new_chain_limits` mapping, as
an association list in insertion order.  The hub entry (key 10) is appended
only when `op_buffer_delta > 0` (line 173). -/
def main (bm rm weekly V : ℚ) (inputs : List ChainInput) (hub : HubInput) :
    List (ℕ × NewLimitData) :=
  if op_buffer_delta bm weekly V inputs > 0 then
    chain_recs bm rm weekly V inputs ++
      [(10, process_hub bm rm (op_buffer_delta bm weekly V inputs)
        (op_expected_emissions bm weekly V inputs) hub)]
  else chain_recs bm rm weekly V inputs

/-- Failure modes of a run.  Python raises `ZeroDivisionError` when the
denominator of `/` is zero; `PreconditionViolation` stands for an explicit
precondition check surfaced distinctly from runtime errors (§7 error
taxonomy). -/
inductive RunError where
  | zeroDivisionError
  | preconditionViolation
  deriving Repr, DecidableEq

/-- Line 95 with Python division semantics: `tvw / V` raises
`ZeroDivisionError` when `V = 0`, and the whole run aborts (no handler exists
anywhere in the script). -/
def process_chain_checked (bm rm weekly V : ℚ) (cd : ChainData) (ts1 ts2 : ℕ) :
    Except RunError (Option NewLimitData) :=
  if V = 0 then .error .zeroDivisionError
  else .ok (process_chain bm rm weekly V cd ts1 ts2)

/-- The per-chain loop with the fallible division of line 95: the first
iteration whose division raises aborts the whole loop. -/
def run_chains (bm rm weekly V : ℚ) : List ChainInput →
    Except RunError (List (ℕ × NewLimitData))
  | [] => .ok []
  | ci :: rest => do
    let rec? ← process_chain_checked bm rm weekly V ci.data
      ci.hub_ts_primary ci.hub_ts_contingency
    let others ← run_chains bm rm weekly V rest
    .ok ((match rec? with
      | some r => [(ci.chain_id, r)]
      | none => []) ++ others)

/-- `main()` with the fallible division of line 95 made explicit: Python's
`ZeroDivisionError` propagates out of `main` uncaught. -/
def main_checked (bm rm weekly V : ℚ) (inputs : List ChainInput) (hub : HubInput) :
    Except RunError (List (ℕ × NewLimitData)) := do
  let recs ← run_chains bm rm weekly V inputs
  if op_buffer_delta bm weekly V inputs > 0 then
    .ok (recs ++ [(10, process_hub bm rm (op_buffer_delta bm weekly V inputs)
      (op_expected_emissions bm weekly V inputs) hub)])
  else .ok recs

/-- Modelled from the spec: the §7 precondition check — "zero total vote
weight … must be detected before the division occurs and surfaced distinctly
from a generic RPC failure".  No such check exists in
`scripts/rate_limits.py`. -/
def precheck_total_vote_weight (V : ℚ) : Except RunError Unit :=
  if V = 0 then .error .preconditionViolation else .ok ()

/-- Modelled from the spec: the §6 Clock Source contract — the primary
replenished buffer computed from "the network's own latest block timestamp"
(`latest_block_timestamp() -> uint`, "per network, since each network's clock
is read independently for its own window").  The script instead reads the
Optimism connection's clock at line 111. -/
def replenished_buffer_own_clock (ci : ChainInput) : ℚ :=
  min (ci.data.current_limit +
      ci.data.existing_rate_limit * (time_to_next_epoch ci.own_ts : ℚ))
    ci.data.existing_midpoint

/-! ### Helper lemmas -/

lemma epoch_next_eq (ts : ℕ) : epoch_next ts = WEEK * (ts / WEEK) + WEEK := by
  have h := Nat.div_add_mod ts WEEK
  simp only [epoch_next]
  omega

lemma time_to_next_epoch_eq (ts : ℕ) : time_to_next_epoch ts = WEEK - ts % WEEK := by
  have h := Nat.div_add_mod ts WEEK
  simp only [time_to_next_epoch, epoch_next_eq]
  omega

lemma time_to_next_epoch_pos (ts : ℕ) : 0 < time_to_next_epoch ts := by
  have h : ts % WEEK < WEEK := Nat.mod_lt _ (by decide)
  simp only [time_to_next_epoch_eq]
  omega

lemma contingency_window_pos (ts : ℕ) : 0 < contingency_window ts := by
  rw [contingency_window]
  split
  · omega
  · have := time_to_next_epoch_pos ts
    simp only [time_to_next_epoch] at this
    omega

lemma half_adjusted_buffer_cap (bm weekly tvw V : ℚ) :
    adjusted_buffer_cap bm weekly tvw V / 2 = expected_emissions bm weekly tvw V := by
  simp only [adjusted_buffer_cap, expected_emissions, min_buffer_cap]
  ring

lemma process_chain_isSome_iff (bm rm weekly V : ℚ) (cd : ChainData) (ts1 ts2 : ℕ) :
    (process_chain bm rm weekly V cd ts1 ts2).isSome = true ↔
      expected_emissions bm weekly cd.total_voting_weight V > replenished_buffer cd ts1 := by
  by_cases h :
      expected_emissions bm weekly cd.total_voting_weight V > replenished_buffer cd ts1
  · rw [process_chain, if_pos h]
    constructor
    · intro _; exact h
    · intro _; split <;> rfl
  · rw [process_chain, if_neg h]
    simp [h]

lemma mem_chain_recs_iff (bm rm weekly V : ℚ) (inputs : List ChainInput) (k : ℕ)
    (r : NewLimitData) :
    (k, r) ∈ chain_recs bm rm weekly V inputs ↔
      ∃ ci ∈ inputs, ci.chain_id = k ∧
        process_chain bm rm weekly V ci.data ci.hub_ts_primary ci.hub_ts_contingency =
          some r := by
  rw [chain_recs, List.mem_filterMap]
  constructor
  · rintro ⟨ci, hci, h⟩
    rw [Option.map_eq_some'] at h
    obtain ⟨a, ha, hpair⟩ := h
    obtain ⟨h1, h2⟩ := Prod.mk.injEq .. ▸ hpair
    exact ⟨ci, hci, h1, h2 ▸ ha⟩
  · rintro ⟨ci, hci, hk, hpc⟩
    exact ⟨ci, hci, by rw [hpc]; simpa using hk⟩

lemma mem_main_iff_mem_chain_recs (bm rm weekly V : ℚ) (inputs : List ChainInput)
    (hub : HubInput) (k : ℕ) (hk : k ≠ 10) (r : NewLimitData) :
    (k, r) ∈ main bm rm weekly V inputs hub ↔
      (k, r) ∈ chain_recs bm rm weekly V inputs := by
  rw [main]
  split
  · rw [List.mem_append]
    simp [Prod.ext_iff, hk]
  · exact Iff.rfl

/-! ### Claims -/

/-- C1: for a network of the configured set (its chain id is not the hub's
10, and the configured ids are distinct), the output mapping of `main` holds
an entry for that network iff its padded expected emissions exceed the
primary replenished buffer
`min(current_limit + existing_rate_limit * time_to_next_epoch,
existing_midpoint)`; when the emissions are covered, no entry is emitted. -/
theorem c1_entry_iff_primary_insufficient (bm rm weekly V : ℚ)
    (inputs : List ChainInput) (hub : HubInput) (ci : ChainInput)
    (hmem : ci ∈ inputs) (hnodup : (inputs.map ChainInput.chain_id).Nodup)
    (hid : ci.chain_id ≠ 10) :
    (∃ r, (ci.chain_id, r) ∈ main bm rm weekly V inputs hub) ↔
      expected_emissions bm weekly ci.data.total_voting_weight V >
        replenished_buffer ci.data ci.hub_ts_primary := by
  constructor
  · rintro ⟨r, hr⟩
    rw [mem_main_iff_mem_chain_recs bm rm weekly V inputs hub _ hid,
      mem_chain_recs_iff] at hr
    obtain ⟨ci', hci', hid', hpc⟩ := hr
    have hci : ci' = ci := List.inj_on_of_nodup_map hnodup hci' hmem hid'
    rw [hci] at hpc
    exact (process_chain_isSome_iff bm rm weekly V ci.data ci.hub_ts_primary
      ci.hub_ts_contingency).mp (by rw [hpc]; rfl)
  · intro hgt
    have hsome :=
      (process_chain_isSome_iff bm rm weekly V ci.data ci.hub_ts_primary
        ci.hub_ts_contingency).mpr hgt
    obtain ⟨r, hr⟩ := Option.isSome_iff_exists.mp hsome
    refine ⟨r, ?_⟩
    rw [mem_main_iff_mem_chain_recs bm rm weekly V inputs hub _ hid,
      mem_chain_recs_iff]
    exact ⟨ci, hmem, rfl, hr⟩

/-- Witness for C1 on a concrete one-network configuration whose buffer
state fails the primary check. -/
theorem c1_witness :
    (∃ r, ((⟨34443, ⟨"Mode", 250, 0, 0, 0, 0⟩, 0, 0, 0⟩ : ChainInput).chain_id, r) ∈
        main BUFFER_MARGIN RPS_MARGIN 10000 1000
          [⟨34443, ⟨"Mode", 250, 0, 0, 0, 0⟩, 0, 0, 0⟩] ⟨0, 0, 0, 0⟩) ↔
      expected_emissions BUFFER_MARGIN 10000
          (⟨34443, ⟨"Mode", 250, 0, 0, 0, 0⟩, 0, 0, 0⟩ : ChainInput).data.total_voting_weight
          1000 >
        replenished_buffer (⟨34443, ⟨"Mode", 250, 0, 0, 0, 0⟩, 0, 0, 0⟩ : ChainInput).data
          (⟨34443, ⟨"Mode", 250, 0, 0, 0, 0⟩, 0, 0, 0⟩ : ChainInput).hub_ts_primary :=
  c1_entry_iff_primary_insufficient BUFFER_MARGIN RPS_MARGIN 10000 1000
    [⟨34443, ⟨"Mode", 250, 0, 0, 0, 0⟩, 0, 0, 0⟩] ⟨0, 0, 0, 0⟩
    ⟨34443, ⟨"Mode", 250, 0, 0, 0, 0⟩, 0, 0, 0⟩
    (List.mem_singleton.mpr rfl) (by simp) (by decide)

/-- C2: for a network failing the primary check, the recommendation is
exactly `(adjusted_buffer_cap, adjusted_rps, temporary_rps)` when the
contingency check also fails — with
`temporary_rps = ((adjusted_buffer_cap/2 - current_limit) /
time_to_next_epoch') * RPS_MARGIN` non-zero — and
`(adjusted_buffer_cap, adjusted_rps, 0)` when the contingency check passes.
Non-negative chain state and positive margins are the spec's §3 invariants. -/
theorem c2_contingency_recommendation (bm rm weekly V : ℚ) (cd : ChainData)
    (ts1 ts2 : ℕ) (hV : 0 < V) (hw : 0 ≤ weekly) (htvw : 0 ≤ cd.total_voting_weight)
    (hrm : 0 < rm)
    (hfail : expected_emissions bm weekly cd.total_voting_weight V >
      replenished_buffer cd ts1) :
    (expected_emissions bm weekly cd.total_voting_weight V >
        contingency_replenished_buffer bm rm weekly V cd ts2 →
      process_chain bm rm weekly V cd ts1 ts2 =
          some ⟨cd.name, adjusted_buffer_cap bm weekly cd.total_voting_weight V,
            adjusted_rps rm weekly cd.total_voting_weight V,
            temporary_rps bm rm weekly V cd ts2⟩ ∧
        temporary_rps bm rm weekly V cd ts2 ≠ 0) ∧
    (¬ expected_emissions bm weekly cd.total_voting_weight V >
        contingency_replenished_buffer bm rm weekly V cd ts2 →
      process_chain bm rm weekly V cd ts1 ts2 =
        some ⟨cd.name, adjusted_buffer_cap bm weekly cd.total_voting_weight V,
          adjusted_rps rm weekly cd.total_voting_weight V, 0⟩) := by
  constructor
  · intro hfail2
    refine ⟨by rw [process_chain, if_pos hfail, if_pos hfail2], ?_⟩
    have hrps : 0 ≤ adjusted_rps rm weekly cd.total_voting_weight V := by
      have : (0:ℚ) ≤ cd.total_voting_weight / V := div_nonneg htvw (le_of_lt hV)
      have h1 : (0:ℚ) ≤ min_buffer_cap weekly cd.total_voting_weight V := by
        simp only [min_buffer_cap, min_emissions, weights_percentage]
        positivity
      simp only [adjusted_rps]
      have h2 : (0:ℚ) < (WEEK : ℚ) := by norm_num [WEEK]
      positivity
    have hlt : expected_emissions bm weekly cd.total_voting_weight V >
        contingency_expected_buffer rm weekly V cd ts2 := by
      rcases min_lt_iff.mp (lt_of_le_of_lt (le_refl _) hfail2) with h | h
      · exact h
      · rw [half_adjusted_buffer_cap] at h
        exact absurd h (lt_irrefl _)
    have hcl : cd.current_limit <
        expected_emissions bm weekly cd.total_voting_weight V := by
      have hw2 : (0:ℚ) ≤
          adjusted_rps rm weekly cd.total_voting_weight V *
            ((contingency_window ts2 : ℕ) : ℚ) :=
        mul_nonneg hrps (Nat.cast_nonneg _)
      have := hlt
      rw [contingency_expected_buffer] at this
      linarith
    have hwin : (0:ℚ) < ((contingency_window ts2 : ℕ) : ℚ) := by
      exact_mod_cast contingency_window_pos ts2
    have hdelta : 0 <
        adjusted_buffer_cap bm weekly cd.total_voting_weight V / 2 - cd.current_limit := by
      rw [half_adjusted_buffer_cap]
      linarith
    have : 0 < temporary_rps bm rm weekly V cd ts2 := by
      rw [temporary_rps]
      exact mul_pos (div_pos hdelta hwin) hrm
    exact ne_of_gt this
  · intro hpass
    rw [process_chain, if_pos hfail, if_neg hpass]

/-- Witness for C2: a concrete network state failing both checks one second
before the epoch boundary; the temporary rate is 3300 ≠ 0. -/
theorem c2_witness :
    process_chain BUFFER_MARGIN RPS_MARGIN 10000 1000 ⟨"Mode", 250, 0, 0, 0, 0⟩ 0 604799 =
        some ⟨"Mode", adjusted_buffer_cap BUFFER_MARGIN 10000 250 1000,
          adjusted_rps RPS_MARGIN 10000 250 1000,
          temporary_rps BUFFER_MARGIN RPS_MARGIN 10000 1000 ⟨"Mode", 250, 0, 0, 0, 0⟩ 604799⟩ ∧
      temporary_rps BUFFER_MARGIN RPS_MARGIN 10000 1000 ⟨"Mode", 250, 0, 0, 0, 0⟩ 604799 ≠ 0 :=
  (c2_contingency_recommendation BUFFER_MARGIN RPS_MARGIN 10000 1000
      ⟨"Mode", 250, 0, 0, 0, 0⟩ 0 604799
      (by norm_num) (by norm_num) (by norm_num) (by norm_num [RPS_MARGIN])
      (by norm_num [expected_emissions, min_emissions, weights_percentage,
        replenished_buffer, BUFFER_MARGIN])).1
    (by norm_num [expected_emissions, min_emissions, weights_percentage,
      contingency_replenished_buffer, contingency_expected_buffer, adjusted_rps,
      adjusted_buffer_cap, min_buffer_cap, contingency_window, replenish_ts, epoch_next,
      WEEK, BUFFER_MARGIN, RPS_MARGIN])

/-- C4: for every timestamp the contingency window `time_to_next_epoch'`
(lines 139–141 and 183) is strictly positive, and when `now = replenish_ts`
exactly, the computation falls back to the epoch-boundary window
`epoch_next - now`, which equals 600; hence the divisions producing
`temporary_rps` never divide by zero. -/
theorem c4_contingency_window_never_zero (ts : ℕ) :
    0 < contingency_window ts ∧
      (ts = replenish_ts ts →
        contingency_window ts = epoch_next ts - ts ∧ contingency_window ts = 600) := by
  refine ⟨contingency_window_pos ts, fun heq => ?_⟩
  have h2 : ¬ ts < replenish_ts ts := by omega
  rw [contingency_window, if_neg h2]
  refine ⟨rfl, ?_⟩
  have hmod : ts % WEEK < WEEK := Nat.mod_lt _ (by decide)
  simp only [replenish_ts, epoch_next, WEEK] at heq ⊢
  omega

/-- Witness for C4 at the concrete timestamp 604200, which satisfies
`ts = replenish_ts ts` exactly. -/
theorem c4_witness :
    0 < contingency_window 604200 ∧ contingency_window 604200 = 600 :=
  ⟨(c4_contingency_window_never_zero 604200).1,
    ((c4_contingency_window_never_zero 604200).2 (by decide)).2⟩

/-- C5 counterexample: with the Scenario A inputs, the step-5 formula
`adjusted_rps = (min_buffer_cap / WEEK) * RPS_MARGIN` yields `55/6048`,
which is not within `1/1000` of the claimed `0.0109` (it is ≈ 0.00909). -/
theorem c5_counterexample :
    adjusted_rps RPS_MARGIN 10000 250 1000 = 55 / 6048 ∧
      ¬ |adjusted_rps RPS_MARGIN 10000 250 1000 - 109 / 10000| < 1 / 1000 := by
  constructor
  · norm_num [adjusted_rps, min_buffer_cap, min_emissions, weights_percentage, WEEK,
      RPS_MARGIN]
  · rw [abs_sub_lt_iff]
    norm_num [adjusted_rps, min_buffer_cap, min_emissions, weights_percentage, WEEK,
      RPS_MARGIN]

/-- C5 (amended): Scenario A — `V_total = 1000`, `v_i = 250`, `W = 10000`,
`BUFFER_MARGIN = 1.2`, `RPS_MARGIN = 1.1`, `WEEK = 604800` — yields
`share_i = 0.25`, `min_emissions_i = 2500`, `expected_emissions_i = 3000`,
`min_buffer_cap_i = 5000`, `adjusted_buffer_cap_i = 6000`, and
`adjusted_rps_i = 55/6048 ≈ 0.0091` (not 0.0109). -/
theorem c5_scenario_a :
    weights_percentage 250 1000 = 1 / 4 ∧
    min_emissions 10000 250 1000 = 2500 ∧
    expected_emissions BUFFER_MARGIN 10000 250 1000 = 3000 ∧
    min_buffer_cap 10000 250 1000 = 5000 ∧
    adjusted_buffer_cap BUFFER_MARGIN 10000 250 1000 = 6000 ∧
    adjusted_rps RPS_MARGIN 10000 250 1000 = 55 / 6048 ∧
    |adjusted_rps RPS_MARGIN 10000 250 1000 - 91 / 10000| < 1 / 10000 := by
  refine ⟨?_, ?_, ?_, ?_, ?_, ?_, ?_⟩
  case refine_7 =>
    rw [abs_sub_lt_iff]
    norm_num [adjusted_rps, min_buffer_cap, min_emissions, weights_percentage, WEEK,
      RPS_MARGIN]
  all_goals
    norm_num [adjusted_buffer_cap, adjusted_rps, expected_emissions, min_buffer_cap,
      min_emissions, weights_percentage, WEEK, BUFFER_MARGIN, RPS_MARGIN]

/-- C6: the primary replenished buffer (lines 115–117) never exceeds
`existing_midpoint`, and the contingency replenished buffer (lines 144–146)
never exceeds `adjusted_buffer_cap / 2`, for every network state and every
timestamp. -/
theorem c6_buffer_ceilings (bm rm weekly V : ℚ) (cd : ChainData) (ts1 ts2 : ℕ) :
    replenished_buffer cd ts1 ≤ cd.existing_midpoint ∧
      contingency_replenished_buffer bm rm weekly V cd ts2 ≤
        adjusted_buffer_cap bm weekly cd.total_voting_weight V / 2 :=
  ⟨min_le_right _ _, min_le_right _ _⟩

/-- C10: `adjusted_buffer_cap / 2` coincides with `expected_emissions`
(both equal `min_emissions * BUFFER_MARGIN`), so the contingency check
`expected_emissions ≤ min(expected_buffer', adjusted_buffer_cap / 2)` holds
iff the uncapped `expected_buffer' = current_limit + adjusted_rps *
time_to_next_epoch'` already reaches `expected_emissions`. -/
theorem c10_contingency_ceiling_coincides (bm rm weekly V : ℚ) (cd : ChainData) (ts : ℕ) :
    adjusted_buffer_cap bm weekly cd.total_voting_weight V / 2 =
      expected_emissions bm weekly cd.total_voting_weight V ∧
    (expected_emissions bm weekly cd.total_voting_weight V ≤
        contingency_replenished_buffer bm rm weekly V cd ts ↔
      expected_emissions bm weekly cd.total_voting_weight V ≤
        contingency_expected_buffer rm weekly V cd ts) := by
  refine ⟨half_adjusted_buffer_cap bm weekly cd.total_voting_weight V, ?_⟩
  rw [contingency_replenished_buffer, le_min_iff,
    half_adjusted_buffer_cap bm weekly cd.total_voting_weight V]
  exact ⟨fun h => h.1, fun h => ⟨h, le_refl _⟩⟩

lemma run_chains_eq_ok (bm rm weekly V : ℚ) (hV : V ≠ 0) (inputs : List ChainInput) :
    run_chains bm rm weekly V inputs = .ok (chain_recs bm rm weekly V inputs) := by
  induction inputs with
  | nil => rfl
  | cons ci rest ih =>
    simp only [run_chains, process_chain_checked, if_neg hV, Bind.bind, Except.bind, ih]
    cases hpc : process_chain bm rm weekly V ci.data ci.hub_ts_primary
        ci.hub_ts_contingency <;>
      simp [chain_recs, List.filterMap_cons, hpc]

lemma main_checked_eq_ok (bm rm weekly V : ℚ) (hV : V ≠ 0) (inputs : List ChainInput)
    (hub : HubInput) :
    main_checked bm rm weekly V inputs hub = .ok (main bm rm weekly V inputs hub) := by
  simp only [main_checked, run_chains_eq_ok bm rm weekly V hV inputs, Bind.bind,
    Except.bind, main]
  split <;> rfl

/-- C3 counterexample: a concrete run with `op_buffer_delta = 6000 > 0`
where the hub's contingency replenished buffer (3000) covers the
protocol-wide expected emissions (3000), yet a hub entry (key 10) is still
added to the output mapping — the hub block never repeats the step-8
sufficiency decision. -/
theorem c3_counterexample :
    op_buffer_delta BUFFER_MARGIN 10000 1000
        [⟨34443, ⟨"Mode", 250, 0, 0, 6000, 1000000⟩, 0, 0, 0⟩] > 0 ∧
    op_expected_emissions BUFFER_MARGIN 10000 1000
        [⟨34443, ⟨"Mode", 250, 0, 0, 6000, 1000000⟩, 0, 0, 0⟩] ≤
      hub_replenished_buffer BUFFER_MARGIN RPS_MARGIN
        (op_buffer_delta BUFFER_MARGIN 10000 1000
          [⟨34443, ⟨"Mode", 250, 0, 0, 6000, 1000000⟩, 0, 0, 0⟩]) ⟨0, 0, 3000, 0⟩ ∧
    (∃ r, ((10:ℕ), r) ∈ main BUFFER_MARGIN RPS_MARGIN 10000 1000
        [⟨34443, ⟨"Mode", 250, 0, 0, 6000, 1000000⟩, 0, 0, 0⟩] ⟨0, 0, 3000, 0⟩) := by
  refine ⟨?_, ?_, ⟨⟨"Optimism", 6000, 55 / 6048, 0⟩, ?_⟩⟩
  · norm_num [op_buffer_delta, delta_contribution, adjusted_buffer_cap, min_buffer_cap,
      min_emissions, weights_percentage, BUFFER_MARGIN]
  · norm_num [op_buffer_delta, op_expected_emissions, delta_contribution,
      hub_replenished_buffer, hub_adjusted_rps, hub_adjusted_buffer_cap,
      adjusted_buffer_cap, min_buffer_cap, min_emissions, expected_emissions,
      weights_percentage, contingency_window, replenish_ts, epoch_next, WEEK,
      BUFFER_MARGIN, RPS_MARGIN]
  · have hmain : main BUFFER_MARGIN RPS_MARGIN 10000 1000
        [⟨34443, ⟨"Mode", 250, 0, 0, 6000, 1000000⟩, 0, 0, 0⟩] ⟨0, 0, 3000, 0⟩ =
        [(10, ⟨"Optimism", 6000, 55 / 6048, 0⟩)] := by
      norm_num [main, chain_recs, process_chain, process_hub, op_buffer_delta,
        op_expected_emissions, delta_contribution, hub_replenished_buffer,
        hub_adjusted_rps, hub_adjusted_buffer_cap, hub_temporary_rps, expected_emissions,
        replenished_buffer, adjusted_buffer_cap, adjusted_rps, min_buffer_cap,
        min_emissions, weights_percentage, contingency_window, replenish_ts, epoch_next,
        time_to_next_epoch, WEEK, BUFFER_MARGIN, RPS_MARGIN]
    rw [hmain]
    exact List.mem_singleton.mpr rfl

/-- C3 (amended): when `op_buffer_delta > 0`, the hub block performs only
the contingency recomputation (steps 9–11, with protocol-wide totals, the
burn-side current limit, and `adjusted_buffer_cap = op_buffer_delta +
op_buffer_cap`) and always appends exactly one hub entry; when the hub's
contingency replenished buffer covers the protocol-wide expected emissions,
that entry carries `temporary_rate_limit = 0` instead of being omitted. -/
theorem c3_hub_always_recommends (bm rm weekly V : ℚ) (inputs : List ChainInput)
    (hub : HubInput) (hd : op_buffer_delta bm weekly V inputs > 0) :
    main bm rm weekly V inputs hub =
      chain_recs bm rm weekly V inputs ++
        [(10, process_hub bm rm (op_buffer_delta bm weekly V inputs)
          (op_expected_emissions bm weekly V inputs) hub)] ∧
    (op_expected_emissions bm weekly V inputs ≤
        hub_replenished_buffer bm rm (op_buffer_delta bm weekly V inputs) hub →
      (process_hub bm rm (op_buffer_delta bm weekly V inputs)
        (op_expected_emissions bm weekly V inputs) hub).temporary_rate_limit = 0) := by
  refine ⟨by rw [main, if_pos hd], fun hle => ?_⟩
  rw [process_hub, if_neg (not_lt.mpr hle)]

/-- Witness for C3's amended statement at the counterexample's inputs. -/
theorem c3_witness :
    main BUFFER_MARGIN RPS_MARGIN 10000 1000
        [⟨34443, ⟨"Mode", 250, 0, 0, 6000, 1000000⟩, 0, 0, 0⟩] ⟨0, 0, 3000, 0⟩ =
      chain_recs BUFFER_MARGIN RPS_MARGIN 10000 1000
          [⟨34443, ⟨"Mode", 250, 0, 0, 6000, 1000000⟩, 0, 0, 0⟩] ++
        [(10, process_hub BUFFER_MARGIN RPS_MARGIN
          (op_buffer_delta BUFFER_MARGIN 10000 1000
            [⟨34443, ⟨"Mode", 250, 0, 0, 6000, 1000000⟩, 0, 0, 0⟩])
          (op_expected_emissions BUFFER_MARGIN 10000 1000
            [⟨34443, ⟨"Mode", 250, 0, 0, 6000, 1000000⟩, 0, 0, 0⟩]) ⟨0, 0, 3000, 0⟩)] ∧
    (process_hub BUFFER_MARGIN RPS_MARGIN
      (op_buffer_delta BUFFER_MARGIN 10000 1000
        [⟨34443, ⟨"Mode", 250, 0, 0, 6000, 1000000⟩, 0, 0, 0⟩])
      (op_expected_emissions BUFFER_MARGIN 10000 1000
        [⟨34443, ⟨"Mode", 250, 0, 0, 6000, 1000000⟩, 0, 0, 0⟩])
      ⟨0, 0, 3000, 0⟩).temporary_rate_limit = 0 :=
  ⟨(c3_hub_always_recommends BUFFER_MARGIN RPS_MARGIN 10000 1000
      [⟨34443, ⟨"Mode", 250, 0, 0, 6000, 1000000⟩, 0, 0, 0⟩] ⟨0, 0, 3000, 0⟩
      (by norm_num [op_buffer_delta, delta_contribution, adjusted_buffer_cap,
        min_buffer_cap, min_emissions, weights_percentage, BUFFER_MARGIN])).1,
    (c3_hub_always_recommends BUFFER_MARGIN RPS_MARGIN 10000 1000
      [⟨34443, ⟨"Mode", 250, 0, 0, 6000, 1000000⟩, 0, 0, 0⟩] ⟨0, 0, 3000, 0⟩
      (by norm_num [op_buffer_delta, delta_contribution, adjusted_buffer_cap,
        min_buffer_cap, min_emissions, weights_percentage, BUFFER_MARGIN])).2
      (by norm_num [op_buffer_delta, op_expected_emissions, delta_contribution,
        hub_replenished_buffer, hub_adjusted_rps, hub_adjusted_buffer_cap,
        adjusted_buffer_cap, min_buffer_cap, min_emissions, expected_emissions,
        weights_percentage, contingency_window, replenish_ts, epoch_next, WEEK,
        BUFFER_MARGIN, RPS_MARGIN])⟩

lemma delta_contribution_nonneg (bm weekly V : ℚ) (cd : ChainData) :
    0 ≤ delta_contribution bm weekly V cd := by
  rw [delta_contribution]
  split
  · next h => exact sub_nonneg.mpr (le_of_lt h)
  · exact le_refl 0

/-- C7: each network contributes `max(0, adjusted_buffer_cap -
existing_buffer_cap)` to `op_buffer_delta`, so the total is non-negative;
when the total is 0 the hub block of line 173 is skipped and no hub entry
(key 10) appears in the output. -/
theorem c7_buffer_delta_total (bm rm weekly V : ℚ) (inputs : List ChainInput)
    (hub : HubInput) :
    (∀ ci ∈ inputs, delta_contribution bm weekly V ci.data =
      max 0 (adjusted_buffer_cap bm weekly ci.data.total_voting_weight V -
        ci.data.existing_buffer_cap)) ∧
    0 ≤ op_buffer_delta bm weekly V inputs ∧
    (op_buffer_delta bm weekly V inputs = 0 →
      main bm rm weekly V inputs hub = chain_recs bm rm weekly V inputs ∧
      ((∀ ci ∈ inputs, ci.chain_id ≠ 10) →
        ∀ r, ((10:ℕ), r) ∉ main bm rm weekly V inputs hub)) := by
  refine ⟨?_, ?_, ?_⟩
  · intro ci _
    rw [delta_contribution]
    split
    · next h => exact (max_eq_right (sub_nonneg.mpr (le_of_lt h))).symm
    · next h => exact (max_eq_left (sub_nonpos.mpr (not_lt.mp h))).symm
  · rw [op_buffer_delta]
    apply List.sum_nonneg
    intro x hx
    obtain ⟨ci, _, hci⟩ := List.mem_map.mp hx
    exact hci ▸ delta_contribution_nonneg bm weekly V ci.data
  · intro h0
    have hmain : main bm rm weekly V inputs hub = chain_recs bm rm weekly V inputs := by
      rw [main, if_neg (by rw [h0]; exact lt_irrefl 0)]
    refine ⟨hmain, fun hids r hmem => ?_⟩
    rw [hmain, mem_chain_recs_iff] at hmem
    obtain ⟨ci, hci, hid10, -⟩ := hmem
    exact hids ci hci hid10

/-- Witness for C7 on a concrete configuration whose adjusted cap does not
exceed the existing cap: `op_buffer_delta = 0` and the output carries no
hub entry. -/
theorem c7_witness :
    0 ≤ op_buffer_delta BUFFER_MARGIN 10000 1000
        [⟨34443, ⟨"Mode", 250, 6000, 0, 0, 0⟩, 0, 0, 0⟩] ∧
    main BUFFER_MARGIN RPS_MARGIN 10000 1000
        [⟨34443, ⟨"Mode", 250, 6000, 0, 0, 0⟩, 0, 0, 0⟩] ⟨0, 0, 0, 0⟩ =
      chain_recs BUFFER_MARGIN RPS_MARGIN 10000 1000
        [⟨34443, ⟨"Mode", 250, 6000, 0, 0, 0⟩, 0, 0, 0⟩] ∧
    ∀ r, ((10:ℕ), r) ∉ main BUFFER_MARGIN RPS_MARGIN 10000 1000
        [⟨34443, ⟨"Mode", 250, 6000, 0, 0, 0⟩, 0, 0, 0⟩] ⟨0, 0, 0, 0⟩ :=
  ⟨(c7_buffer_delta_total BUFFER_MARGIN RPS_MARGIN 10000 1000
      [⟨34443, ⟨"Mode", 250, 6000, 0, 0, 0⟩, 0, 0, 0⟩] ⟨0, 0, 0, 0⟩).2.1,
    ((c7_buffer_delta_total BUFFER_MARGIN RPS_MARGIN 10000 1000
      [⟨34443, ⟨"Mode", 250, 6000, 0, 0, 0⟩, 0, 0, 0⟩] ⟨0, 0, 0, 0⟩).2.2
      (by norm_num [op_buffer_delta, delta_contribution, adjusted_buffer_cap,
        min_buffer_cap, min_emissions, weights_percentage, BUFFER_MARGIN])).1,
    ((c7_buffer_delta_total BUFFER_MARGIN RPS_MARGIN 10000 1000
      [⟨34443, ⟨"Mode", 250, 6000, 0, 0, 0⟩, 0, 0, 0⟩] ⟨0, 0, 0, 0⟩).2.2
      (by norm_num [op_buffer_delta, delta_contribution, adjusted_buffer_cap,
        min_buffer_cap, min_emissions, weights_percentage, BUFFER_MARGIN])).2
      (by intro ci hci; rw [List.mem_singleton] at hci; subst hci; decide)⟩

/-- C8 counterexample: with zero protocol-wide vote weight the run aborts
with the `ZeroDivisionError` raised by the share division of line 95 itself
— not with a distinct precondition-violation error raised before the
division (no such check exists in the script). -/
theorem c8_counterexample :
    main_checked BUFFER_MARGIN RPS_MARGIN 10000 0
        [⟨34443, ⟨"Mode", 250, 0, 0, 0, 0⟩, 0, 0, 0⟩] ⟨0, 0, 0, 0⟩ =
      .error .zeroDivisionError ∧
    RunError.zeroDivisionError ≠ RunError.preconditionViolation :=
  ⟨by simp [main_checked, run_chains, process_chain_checked, Bind.bind, Except.bind],
    by decide⟩

/-- C8 (amended): when `V_total = 0` and at least one network is configured,
the run does fail fast — but via the uncaught `ZeroDivisionError` raised at
the first share division, with no prior precondition check; the spec's
distinct precondition surfacing (modelled by `precheck_total_vote_weight`)
is what the script lacks. -/
theorem c8_zero_vote_weight_divides (bm rm weekly : ℚ) (ci : ChainInput)
    (rest : List ChainInput) (hub : HubInput) :
    main_checked bm rm weekly 0 (ci :: rest) hub = .error .zeroDivisionError ∧
    precheck_total_vote_weight 0 = .error .preconditionViolation := by
  constructor
  · simp [main_checked, run_chains, process_chain_checked, Bind.bind, Except.bind]
  · rw [precheck_total_vote_weight, if_pos rfl]

/-- C9 counterexample: a network whose own clock sits at the epoch start
(own window 604800 s, own-clock replenished buffer 604800 ≥ expected
emissions 3000, so the claim predicts no entry) still receives a
recommendation, because the script computes the window from the hub
(Optimism) clock, which reads 604799 (window 1 s); changing the network's
own clock leaves the output unchanged. -/
theorem c9_counterexample :
    expected_emissions BUFFER_MARGIN 10000 (250:ℚ) 1000 ≤
      replenished_buffer_own_clock
        ⟨252, ⟨"Fraxtal", 250, 1000000000, 1, 0, 1000000000⟩, 0, 604799, 604799⟩ ∧
    (∃ r, ((252:ℕ), r) ∈ main BUFFER_MARGIN RPS_MARGIN 10000 1000
        [⟨252, ⟨"Fraxtal", 250, 1000000000, 1, 0, 1000000000⟩, 0, 604799, 604799⟩]
        ⟨0, 0, 0, 0⟩) ∧
    main BUFFER_MARGIN RPS_MARGIN 10000 1000
        [⟨252, ⟨"Fraxtal", 250, 1000000000, 1, 0, 1000000000⟩, 123456, 604799, 604799⟩]
        ⟨0, 0, 0, 0⟩ =
      main BUFFER_MARGIN RPS_MARGIN 10000 1000
        [⟨252, ⟨"Fraxtal", 250, 1000000000, 1, 0, 1000000000⟩, 0, 604799, 604799⟩]
        ⟨0, 0, 0, 0⟩ := by
  refine ⟨?_, ⟨⟨"Fraxtal", 6000, 55 / 6048, 3300⟩, ?_⟩, ?_⟩
  · norm_num [expected_emissions, min_emissions, weights_percentage,
      replenished_buffer_own_clock, time_to_next_epoch, epoch_next, WEEK, BUFFER_MARGIN]
  · have hmain : main BUFFER_MARGIN RPS_MARGIN 10000 1000
        [⟨252, ⟨"Fraxtal", 250, 1000000000, 1, 0, 1000000000⟩, 0, 604799, 604799⟩]
        ⟨0, 0, 0, 0⟩ =
        [(252, ⟨"Fraxtal", 6000, 55 / 6048, 3300⟩)] := by
      norm_num [main, chain_recs, List.filterMap_cons, process_chain, process_hub,
        op_buffer_delta, op_expected_emissions, delta_contribution,
        hub_replenished_buffer, hub_adjusted_rps, hub_adjusted_buffer_cap,
        hub_temporary_rps, expected_emissions, replenished_buffer, adjusted_buffer_cap,
        adjusted_rps, min_buffer_cap, min_emissions, weights_percentage,
        contingency_window, replenish_ts, epoch_next, time_to_next_epoch, temporary_rps,
        contingency_replenished_buffer, contingency_expected_buffer, WEEK, BUFFER_MARGIN,
        RPS_MARGIN]
    rw [hmain]
    exact List.mem_singleton.mpr rfl
  · rfl

/-- C9 (amended): every epoch window comes from the hub (Optimism) clock
reads; no network's own clock is consulted, so rewriting every network's
own timestamp arbitrarily leaves the output mapping unchanged. -/
theorem c9_windows_use_hub_clock (bm rm weekly V : ℚ) (inputs : List ChainInput)
    (hub : HubInput) (f : ChainInput → ℕ) :
    main bm rm weekly V (inputs.map fun ci => { ci with own_ts := f ci }) hub =
      main bm rm weekly V inputs hub := by
  have h1 : chain_recs bm rm weekly V (inputs.map fun ci => { ci with own_ts := f ci }) =
      chain_recs bm rm weekly V inputs := by
    rw [chain_recs, chain_recs, List.filterMap_map]
    rfl
  have h2 : op_buffer_delta bm weekly V
      (inputs.map fun ci => { ci with own_ts := f ci }) =
      op_buffer_delta bm weekly V inputs := by
    rw [op_buffer_delta, op_buffer_delta, List.map_map]
    rfl
  have h3 : op_expected_emissions bm weekly V
      (inputs.map fun ci => { ci with own_ts := f ci }) =
      op_expected_emissions bm weekly V inputs := by
    rw [op_expected_emissions, op_expected_emissions, List.map_map]
    rfl
  rw [main, main, h1, h2, h3]

end RateLimits
